import Mathlib

set_option maxRecDepth 10000

namespace ArtifactsGallery

/-- ASCII whitespace, modelling the characters that JavaScript trim() and the
regex class backslash-s strip in the source (non-ASCII whitespace is outside
the model). -/
def isWS (c : Char) : Bool :=
  c == ' ' || c == '\t' || c == '\n' || c == '\r' || c == '\x0b' || c == '\x0c'

/-- Model of content.trim(): strip leading and trailing whitespace. -/
def trimList (s : List Char) : List Char :=
  ((s.dropWhile isWS).reverse.dropWhile isWS).reverse

/-- Boolean list-prefix test. -/
def isPrefixOfB : List Char → List Char → Bool
  | [], _ => true
  | _ :: _, [] => false
  | a :: as, b :: bs => a == b && isPrefixOfB as bs

/-- Model of haystack.includes(needle): Boolean substring test, case
sensitive exactly as in JavaScript. -/
def containsSub (n : List Char) : List Char → Bool
  | [] => isPrefixOfB n []
  | c :: cs => isPrefixOfB n (c :: cs) || containsSub n cs

/-- Pattern atoms of the small regex engine used to embed the source's regex
literals: a literal run, one character of a class, an optional single
character, greedy star and plus over a class, and capturing variants of the
quantifiers.  Greedy quantifiers try the longest run first and backtrack,
reproducing the JavaScript matching order for these patterns. -/
inductive Pat where
  | str (lit : List Char)
  | cls1 (p : Char → Bool)
  | opt (p : Char → Bool)
  | many0 (p : Char → Bool)
  | many1 (p : Char → Bool)
  | grpMany0 (p : Char → Bool)
  | grpMany1 (p : Char → Bool)

/-- Length of the longest run of characters satisfying p at the head of s. -/
def countWhile (p : Char → Bool) (s : List Char) : Nat :=
  (s.takeWhile p).length

/-- Candidate run lengths n, n-1, ..., 0 in greedy preference order. -/
def descFrom : Nat → List Nat
  | 0 => [0]
  | n + 1 => (n + 1) :: descFrom n

/-- Match a pattern sequence at the start of s; on success return the captures
in order and the remaining suffix. -/
def matchSeq : List Pat → List Char → Option (List (List Char) × List Char)
  | [], s => some ([], s)
  | Pat.str lit :: ps, s =>
      if isPrefixOfB lit s then matchSeq ps (s.drop lit.length) else none
  | Pat.cls1 p :: ps, s =>
      match s with
      | [] => none
      | c :: cs => if p c then matchSeq ps cs else none
  | Pat.opt p :: ps, s =>
      match s with
      | [] => matchSeq ps []
      | c :: cs =>
          if p c then
            match matchSeq ps cs with
            | some r => some r
            | none => matchSeq ps (c :: cs)
          else matchSeq ps (c :: cs)
  | Pat.many0 p :: ps, s =>
      (descFrom (countWhile p s)).findSome? fun k => matchSeq ps (s.drop k)
  | Pat.many1 p :: ps, s =>
      ((descFrom (countWhile p s)).dropLast).findSome? fun k => matchSeq ps (s.drop k)
  | Pat.grpMany0 p :: ps, s =>
      (descFrom (countWhile p s)).findSome? fun k =>
        match matchSeq ps (s.drop k) with
        | some (caps, r) => some (s.take k :: caps, r)
        | none => none
  | Pat.grpMany1 p :: ps, s =>
      ((descFrom (countWhile p s)).dropLast).findSome? fun k =>
        match matchSeq ps (s.drop k) with
        | some (caps, r) => some (s.take k :: caps, r)
        | none => none

/-- Leftmost match search, as a JavaScript regex scan: slide over the string
and match at the first position that succeeds.  Returns the text before the
match, the captures, the matched text and the suffix after the match. -/
def findMatch (pats : List Pat) : List Char → Option (List Char × List (List Char) × List Char × List Char)
  | [] =>
      match matchSeq pats [] with
      | some (caps, rest) => some ([], caps, [], rest)
      | none => none
  | c :: cs =>
      match matchSeq pats (c :: cs) with
      | some (caps, rest) => some ([], caps, (c :: cs).take ((c :: cs).length - rest.length), rest)
      | none =>
          match findMatch pats cs with
          | some (pre, caps, m, suf) => some (c :: pre, caps, m, suf)
          | none => none

/-- True when the pattern matches somewhere in the string. -/
def hasMatch (pats : List Pat) (s : List Char) : Bool :=
  (findMatch pats s).isSome

/-- True when the pattern matches at the very start of the string (a regex
anchored with a caret and no multiline flag). -/
def anchoredMatch (pats : List Pat) (s : List Char) : Bool :=
  (matchSeq pats s).isSome

/-- Fuelled global replace.  Every pattern embedded here starts with a
non-empty literal, so each replacement consumes at least one character and
fuel equal to the string length plus one is always sufficient; matches are
non-overlapping and the scan resumes after each match, as in a JavaScript
global replace. -/
def replaceAllF (pats : List Pat) (tmpl : List (List Char) → List Char) : Nat → List Char → List Char
  | 0, s => s
  | fuel + 1, s =>
      match findMatch pats s with
      | none => s
      | some (pre, caps, _, suf) => pre ++ tmpl caps ++ replaceAllF pats tmpl fuel suf

/-- Model of s.replace(regex-with-g-flag, template). -/
def replaceAll (pats : List Pat) (tmpl : List (List Char) → List Char) (s : List Char) : List Char :=
  replaceAllF pats tmpl (s.length + 1) s

/-- Left brace character, written via its code point. -/
def lbrace : Char := '\x7b'

/-- Right brace character, written via its code point. -/
def rbrace : Char := '\x7d'

/-- Single-quote character. -/
def sq : Char := '\''

/-- Regex class backslash-w: ASCII letters, digits and underscore. -/
def wordP (c : Char) : Bool := c.isAlpha || c.isDigit || c == '_'

/-- Regex class of ASCII letters and digits. -/
def alnumP (c : Char) : Bool := c.isAlpha || c.isDigit

/-- Regex dot without the s flag: any character except line terminators. -/
def dotP (c : Char) : Bool := !(c == '\n' || c == '\r' || c.val == 0x2028 || c.val == 0x2029)

/-- Regex class matching a single or double quote. -/
def quoteP (c : Char) : Bool := c == sq || c == '"'

/-- Semicolon class for the optional trailing semicolon. -/
def semiP (c : Char) : Bool := c == ';'

/-- Comma class. -/
def commaP (c : Char) : Bool := c == ','

/-- Regex class excluding the right brace. -/
def notRBraceP (c : Char) : Bool := !(c == rbrace)

/-- Class excluding the closing angle bracket. -/
def notGtP (c : Char) : Bool := !(c == '>')

/-- One character matched case-insensitively (the regex i flag). -/
def ciChar (c : Char) : Pat := Pat.cls1 (fun x => x.toLower == c)

/-- A literal matched case-insensitively. -/
def ciStr (lit : List Char) : List Pat := lit.map ciChar

def importLit : List Char := "import".toList

def fromLit : List Char := "from".toList

def reactLit : List Char := "React".toList

def reactModLit : List Char := "react".toList

def lucideModLit : List Char := "lucide-react".toList

def rechartsModLit : List Char := "recharts".toList

def exportLit : List Char := "export".toList

def defaultLit : List Char := "default".toList

/-- Transformer rule 1, the regex removing a combined React default plus
named import from the react module. -/
def rule1Pat : List Pat :=
  [Pat.str importLit, Pat.many1 isWS, Pat.str reactLit, Pat.many0 isWS, Pat.opt commaP,
   Pat.many0 isWS, Pat.str [lbrace], Pat.many0 isWS, Pat.grpMany0 notRBraceP, Pat.many0 isWS,
   Pat.str [rbrace], Pat.many1 isWS, Pat.str fromLit, Pat.many1 isWS, Pat.cls1 quoteP,
   Pat.str reactModLit, Pat.cls1 quoteP, Pat.opt semiP]

/-- Transformer rule 2, removing a plain React default import. -/
def rule2Pat : List Pat :=
  [Pat.str importLit, Pat.many1 isWS, Pat.str reactLit, Pat.many1 isWS, Pat.str fromLit,
   Pat.many1 isWS, Pat.cls1 quoteP, Pat.str reactModLit, Pat.cls1 quoteP, Pat.opt semiP]

/-- Transformer rule 3, removing a named-destructure import from the react
module. -/
def rule3Pat : List Pat :=
  [Pat.str importLit, Pat.many1 isWS, Pat.str [lbrace], Pat.many0 isWS,
   Pat.grpMany0 notRBraceP, Pat.many0 isWS, Pat.str [rbrace], Pat.many1 isWS, Pat.str fromLit,
   Pat.many1 isWS, Pat.cls1 quoteP, Pat.str reactModLit, Pat.cls1 quoteP, Pat.opt semiP]

/-- Transformer rule 4, rewriting a named lucide-react import to a comment. -/
def rule4Pat : List Pat :=
  [Pat.str importLit, Pat.many1 isWS, Pat.str [lbrace], Pat.many0 isWS,
   Pat.grpMany0 notRBraceP, Pat.many0 isWS, Pat.str [rbrace], Pat.many1 isWS, Pat.str fromLit,
   Pat.many1 isWS, Pat.cls1 quoteP, Pat.str lucideModLit, Pat.cls1 quoteP, Pat.opt semiP]

/-- Transformer rule 5, rewriting a default lucide-react import to a comment. -/
def rule5Pat : List Pat :=
  [Pat.str importLit, Pat.many1 isWS, Pat.grpMany1 wordP, Pat.many1 isWS, Pat.str fromLit,
   Pat.many1 isWS, Pat.cls1 quoteP, Pat.str lucideModLit, Pat.cls1 quoteP, Pat.opt semiP]

/-- Transformer rule 6, removing a named recharts import. -/
def rule6Pat : List Pat :=
  [Pat.str importLit, Pat.many1 isWS, Pat.str [lbrace], Pat.many0 isWS,
   Pat.grpMany0 notRBraceP, Pat.many0 isWS, Pat.str [rbrace], Pat.many1 isWS, Pat.str fromLit,
   Pat.many1 isWS, Pat.cls1 quoteP, Pat.str rechartsModLit, Pat.cls1 quoteP, Pat.opt semiP]

/-- Transformer rule 7, commenting out any remaining import statement. -/
def rule7Pat : List Pat :=
  [Pat.str importLit, Pat.many1 isWS, Pat.grpMany1 dotP, Pat.many1 isWS, Pat.str fromLit,
   Pat.many1 isWS, Pat.cls1 quoteP, Pat.grpMany1 dotP, Pat.cls1 quoteP, Pat.opt semiP]

/-- Transformer rule 8, rewriting a named default export to the sentinel
assignment. -/
def rule8Pat : List Pat :=
  [Pat.str exportLit, Pat.many1 isWS, Pat.str defaultLit, Pat.many1 isWS,
   Pat.grpMany1 wordP, Pat.opt semiP]

/-- Transformer rule 9, rewriting any remaining default-export marker to the
sentinel assignment head. -/
def rule9Pat : List Pat :=
  [Pat.str exportLit, Pat.many1 isWS, Pat.str defaultLit, Pat.many1 isWS]

/-- First capture or the empty string. -/
def cap1 (caps : List (List Char)) : List Char := caps.headD []

/-- Second capture or the empty string. -/
def cap2 (caps : List (List Char)) : List Char := caps.getD 1 []

/-- Template erasing the match. -/
def emptyTmpl : List (List Char) → List Char := fun _ => []

def lucideIconsCmtA : List Char := "/* Imported Lucide icons: ".toList

def lucideIconCmtA : List Char := "/* Imported Lucide icon: ".toList

def cmtClose : List Char := " */".toList

def genericCmtA : List Char := "/* import ".toList

def genericCmtB : List Char := " from \"".toList

def genericCmtC : List Char := "\" */".toList

def sentinelAssignA : List Char := "var componentToRender = ".toList

/-- Replacement of rule 4. -/
def rule4Tmpl (caps : List (List Char)) : List Char := lucideIconsCmtA ++ cap1 caps ++ cmtClose

/-- Replacement of rule 5. -/
def rule5Tmpl (caps : List (List Char)) : List Char := lucideIconCmtA ++ cap1 caps ++ cmtClose

/-- Replacement of rule 7. -/
def rule7Tmpl (caps : List (List Char)) : List Char :=
  genericCmtA ++ cap1 caps ++ genericCmtB ++ cap2 caps ++ genericCmtC

/-- Replacement of rule 8. -/
def rule8Tmpl (caps : List (List Char)) : List Char := sentinelAssignA ++ cap1 caps ++ [';']

/-- Replacement of rule 9 (note the trailing space of the sentinel head). -/
def rule9Tmpl : List (List Char) → List Char := fun _ => sentinelAssignA

/-- The code transformer of executeComponentCode: the nine global regex
replaces applied in source order. -/
def transform (code : List Char) : List Char :=
  replaceAll rule9Pat rule9Tmpl
    (replaceAll rule8Pat rule8Tmpl
      (replaceAll rule7Pat rule7Tmpl
        (replaceAll rule6Pat emptyTmpl
          (replaceAll rule5Pat rule5Tmpl
            (replaceAll rule4Pat rule4Tmpl
              (replaceAll rule3Pat emptyTmpl
                (replaceAll rule2Pat emptyTmpl
                  (replaceAll rule1Pat emptyTmpl code))))))))

/-- True when none of the nine rewrite-rule patterns matches the string. -/
def noRuleMatch (s : List Char) : Bool :=
  !hasMatch rule1Pat s && !hasMatch rule2Pat s && !hasMatch rule3Pat s &&
  !hasMatch rule4Pat s && !hasMatch rule5Pat s && !hasMatch rule6Pat s &&
  !hasMatch rule7Pat s && !hasMatch rule8Pat s && !hasMatch rule9Pat s

def svgNeedle : List Char := "<svg".toList

def svgCloseNeedle : List Char := "</svg>".toList

def ltNeedle : List Char := "<".toList

def closeTagNeedle : List Char := "</".toList

def circleNeedle : List Char := "circle".toList

def rectNeedle : List Char := "rect".toList

def pathNeedle : List Char := "path".toList

def polygonNeedle : List Char := "polygon".toList

def svgLowerLit : List Char := "svg".toList

/-- The regex looking for an svg open tag with attributes, case-insensitive. -/
def svgOpenPat : List Pat :=
  [Pat.cls1 (fun c => c == '<')] ++ ciStr svgLowerLit ++
  [Pat.many1 isWS, Pat.many0 notGtP, Pat.cls1 (fun c => c == '>')]

/-- The looksLikeSvg heuristic of ArtifactRunner: an svg substring, or an svg
open tag with attributes, or an open and close tag together with one of four
shape element names. -/
def looksLikeSvg (content : List Char) : Bool :=
  containsSub svgNeedle (trimList content) ||
  hasMatch svgOpenPat (trimList content) ||
  (containsSub ltNeedle (trimList content) && containsSub closeTagNeedle (trimList content) &&
    (containsSub circleNeedle (trimList content) || containsSub rectNeedle (trimList content) ||
     containsSub pathNeedle (trimList content) || containsSub polygonNeedle (trimList content)))

def graphLit : List Char := "graph".toList

def flowchartLit : List Char := "flowchart".toList

def sequenceDiagramLit : List Char := "sequencediagram".toList

def classDiagramLit : List Char := "classdiagram".toList

def stateDiagramLit : List Char := "statediagram".toList

def erDiagramLit : List Char := "erdiagram".toList

def journeyLit : List Char := "journey".toList

def ganttLit : List Char := "gantt".toList

def pieLit : List Char := "pie".toList

def mindmapLit : List Char := "mindmap".toList

/-- Anchored pattern for the graph keyword followed by whitespace and an
alphanumeric character, case-insensitive. -/
def graphPat : List Pat := ciStr graphLit ++ [Pat.many1 isWS, Pat.cls1 alnumP]

/-- Anchored pattern for the flowchart keyword. -/
def flowchartPat : List Pat := ciStr flowchartLit ++ [Pat.many1 isWS, Pat.cls1 alnumP]

/-- The looksLikeMermaid heuristic of ArtifactRunner: one of ten anchored,
case-insensitive keyword patterns must match at the start of the trimmed
content. -/
def looksLikeMermaid (content : List Char) : Bool :=
  anchoredMatch graphPat (trimList content) ||
  anchoredMatch flowchartPat (trimList content) ||
  anchoredMatch (ciStr sequenceDiagramLit) (trimList content) ||
  anchoredMatch (ciStr classDiagramLit) (trimList content) ||
  anchoredMatch (ciStr stateDiagramLit) (trimList content) ||
  anchoredMatch (ciStr erDiagramLit) (trimList content) ||
  anchoredMatch (ciStr journeyLit) (trimList content) ||
  anchoredMatch (ciStr ganttLit) (trimList content) ||
  anchoredMatch (ciStr pieLit) (trimList content) ||
  anchoredMatch (ciStr mindmapLit) (trimList content)

def htmlOpenCmtNeedle : List Char := "<!--".toList

def importReactNeedle : List Char := "import React".toList

def functionNeedle : List Char := "function".toList

def classNeedle : List Char := "class".toList

def exportDefaultNeedle : List Char := "export default".toList

def useStateNeedle : List Char := "useState".toList

def returnNeedle : List Char := "return".toList

def selfCloseNeedle : List Char := "/>".toList

/-- The shouldProcessAsReact heuristic of ArtifactRunner: reject markup and
diagram shaped content and content with markup comments, then look for
positive component indicators. -/
def shouldProcessAsReact (content : List Char) : Bool :=
  if looksLikeSvg content || looksLikeMermaid content then false
  else if containsSub htmlOpenCmtNeedle (trimList content) then false
  else
    containsSub importReactNeedle (trimList content) ||
    containsSub functionNeedle (trimList content) ||
    containsSub classNeedle (trimList content) ||
    containsSub exportDefaultNeedle (trimList content) ||
    containsSub useStateNeedle (trimList content) ||
    (containsSub returnNeedle (trimList content) && containsSub ltNeedle (trimList content) &&
     containsSub selfCloseNeedle (trimList content))

/-- The declared artifact type stored with a snippet. -/
inductive DeclaredType where
  | react
  | svg
  | mermaid
deriving DecidableEq

/-- The three renderer paths of the dispatch. -/
inductive RPath where
  | component
  | markup
  | diagram
deriving DecidableEq

/-- The renderer path the dispatch of loadArtifact actually runs for a given
declared type and code: declared svg and mermaid go straight to their
renderer; declared react consults the classifier and falls back once. -/
def chosenPath : DeclaredType → List Char → RPath
  | DeclaredType.svg, _ => RPath.markup
  | DeclaredType.mermaid, _ => RPath.diagram
  | DeclaredType.react, code =>
      if shouldProcessAsReact code then RPath.component
      else if looksLikeSvg code then RPath.markup
      else if looksLikeMermaid code then RPath.diagram
      else RPath.component

/-- Number of fallback transitions the dispatch takes: one exactly when a
react-declared snippet is rerouted to the markup or diagram renderer. -/
def fallbackCount : DeclaredType → List Char → Nat
  | DeclaredType.react, code =>
      if shouldProcessAsReact code then 0
      else if looksLikeSvg code then 1
      else if looksLikeMermaid code then 1
      else 0
  | _, _ => 0

/-- The classifier's confident inference, independent of the declared kind:
component, markup or diagram when the respective heuristic fires in the
source's priority order, none when the last-resort branch would be taken. -/
def inferredConfident (code : List Char) : Option RPath :=
  if shouldProcessAsReact code then some RPath.component
  else if looksLikeSvg code then some RPath.markup
  else if looksLikeMermaid code then some RPath.diagram
  else none

/-- The SVGRenderer precondition (its line 18): the code must contain both an
svg open substring and the closing tag. -/
def svgValid (code : List Char) : Bool :=
  containsSub svgNeedle code && containsSub svgCloseNeedle code

/-- Whether a renderer path succeeds.  Component execution and diagram
compilation happen in external collaborators (Babel plus the host runtime,
mermaid), so their success is a parameter; the markup path succeeds exactly
when the SVGRenderer validation passes (the external sanitizer is total); the
diagram path additionally requires non-blank input. -/
def pathSucceeds : RPath → List Char → Bool → Bool → Bool
  | RPath.component, _, execOk, _ => execOk
  | RPath.markup, code, _, _ => svgValid code
  | RPath.diagram, code, _, diagOk => !(trimList code).isEmpty && diagOk

/-- Terminal outcome of a render pass. -/
inductive Outcome where
  | rendered (p : RPath)
  | failed
deriving DecidableEq

/-- Terminal outcome of the dispatch: the chosen path either renders or the
pass fails; no second fallback exists in the code. -/
def renderOutcome (t : DeclaredType) (code : List Char) (execOk diagOk : Bool) : Outcome :=
  if pathSucceeds (chosenPath t code) code execOk diagOk then Outcome.rendered (chosenPath t code)
  else Outcome.failed

def notDefinedNeedle : List Char := "is not defined".toList

def notFunctionNeedle : List Char := "is not a function".toList

def spaceNotDefinedLit : List Char := " is not defined".toList

/-- The regex extracting the symbol name from an undefined-symbol message. -/
def notDefinedPat : List Pat := [Pat.grpMany1 wordP, Pat.str spaceNotDefinedLit]

/-- Model of message.match applied to the undefined-symbol regex: the first
capture of the leftmost match, if any. -/
def extractNotDefined (msg : List Char) : Option (List Char) :=
  match findMatch notDefinedPat msg with
  | some (_, c :: _, _, _) => some c
  | _ => none

/-- The single-quoted lucide-react needle the enrichment checks the source
for (the code tests for the single-quoted form only). -/
def sqLucideNeedle : List Char := [sq] ++ lucideModLit ++ [sq]

def missingIconMsgA : List Char := "Missing icon: \"".toList

/-- Middle part of the missing-icon message, with its single quotes. -/
def missingIconMsgB : List Char :=
  "\". Make sure it".toList ++ [sq] ++ "s properly imported from ".toList ++
  [sq] ++ lucideModLit ++ [sq] ++ ". Available icons: ".toList

/-- Join with a comma and a space, as JavaScript Array.join. -/
def joinComma : List (List Char) → List Char
  | [] => []
  | [x] => x
  | x :: y :: ys => x ++ ", ".toList ++ joinComma (y :: ys)

/-- The enriched missing-icon error message, naming the symbol and listing the
available icon names. -/
def missingIconMsg (icons : List (List Char)) (name : List Char) : List Char :=
  missingIconMsgA ++ name ++ missingIconMsgB ++ joinComma icons

/-- The outer catch of executeComponentCode: when the raw message signals an
undefined or non-callable symbol, the symbol is extracted, and it is missing
from the capability namespace while the source mentions the single-quoted
lucide-react specifier, re-raise the enriched missing-icon error; otherwise
re-raise the message unchanged.  The namespace membership test and the icon
name list are parameters standing for the globals object and the icon set. -/
def enrichError (ns : List Char → Bool) (icons : List (List Char)) (code msg : List Char) : List Char :=
  if containsSub notDefinedNeedle msg || containsSub notFunctionNeedle msg then
    match extractNotDefined msg with
    | some name => if !ns name && containsSub sqLucideNeedle code then missingIconMsg icons name else msg
    | none => msg
  else msg

def svgSuggestMsg : List Char :=
  "This appears to be SVG code. Try changing the artifact type to \"SVG Image\".".toList

def mermaidSuggestMsg : List Char :=
  "This appears to be Mermaid diagram code. Try changing the artifact type to \"Mermaid Diagram\".".toList

def htmlCommentsSuggestMsg : List Char :=
  "HTML comments (<!-- -->) are not supported in React components. If this is SVG code, change the artifact type to \"SVG Image\".".toList

/-- The inner catch of executeComponentCode: a transform or execution failure
is replaced by a guidance message when the code looks like markup, a diagram,
or carries markup comments; otherwise the raw message is re-thrown. -/
def innerCatchMsg (code raw : List Char) : List Char :=
  if looksLikeSvg code then svgSuggestMsg
  else if looksLikeMermaid code then mermaidSuggestMsg
  else if containsSub htmlOpenCmtNeedle code then htmlCommentsSuggestMsg
  else raw

/-- Model of the JavaScript expression m or-else d: the default replaces the
message exactly when the message is the empty (falsy) string. -/
def orDefaultMsg (d m : List Char) : List Char :=
  if m.isEmpty then d else m

/-- The default message of the dispatch catch. -/
def failedRenderDefaultMsg : List Char := "Failed to render artifact".toList

/-- The message the dispatch catch stores in renderError for a component-path
failure: the inner catch's message, run through the lucide enrichment, with
the fixed default substituted when the resulting message is empty. -/
def displayedMessage (code raw : List Char) (ns : List Char → Bool) (icons : List (List Char)) : List Char :=
  orDefaultMsg failedRenderDefaultMsg (enrichError ns icons code (innerCatchMsg code raw))

/-- The four remediation tips the UI shell can attach to a render error. -/
inductive Hint where
  | lucideTip
  | svgTip
  | mermaidTip
  | htmlTip
deriving DecidableEq

def lucideReactNeedle : List Char := "lucide-react".toList

def svgUpperNeedle : List Char := "SVG".toList

def mermaidWordNeedle : List Char := "Mermaid".toList

def htmlCommentsNeedle : List Char := "HTML comments".toList

/-- The conditional tips of the error panel: each is shown exactly when the
displayed message contains its trigger substring. -/
def hintsFor (msg : List Char) : List Hint :=
  (if containsSub lucideReactNeedle msg then [Hint.lucideTip] else []) ++
  (if containsSub svgUpperNeedle msg then [Hint.svgTip] else []) ++
  (if containsSub mermaidWordNeedle msg then [Hint.mermaidTip] else []) ++
  (if containsSub htmlCommentsNeedle msg then [Hint.htmlTip] else [])

/-- What the UI shell shows for a render pass. -/
inductive UIView where
  | mounted
  | errorBox (msg : List Char) (hints : List Hint)
deriving DecidableEq

/-- The terminal view produced when the component path fails: the dispatch
catch always converts the failure into the error panel with the displayed
message and its hints; nothing is re-thrown past it. -/
def componentFailureView (code raw : List Char) (ns : List Char → Bool) (icons : List (List Char)) : UIView :=
  UIView.errorBox (displayedMessage code raw ns icons)
    (hintsFor (displayedMessage code raw ns icons))

def noDiagramMsg : List Char := "No diagram code provided".toList

/-- The default message of the MermaidRenderer catch. -/
def mermaidDefaultMsg : List Char := "Failed to render Mermaid diagram".toList

/-- Terminal outcome of the MermaidRenderer effect. -/
inductive DiagOutcome where
  | ok (svg : List Char)
  | errorMsg (msg : List Char)
deriving DecidableEq

/-- The renderDiagram effect of MermaidRenderer: blank input short-circuits
with a fixed message; otherwise the parse-only pass runs first and a parse
failure is caught before the render pass is consulted; a render failure is
caught by the same handler, which stores the failure message with the fixed
default substituted when the message is empty.  The two external mermaid
calls are parameters.  The render pass's random per-invocation identifier
does not influence the outcome and is outside the model. -/
def renderDiagramModel (code : List Char) (parseRes : Except (List Char) Unit)
    (renderRes : Except (List Char) (List Char)) : DiagOutcome :=
  if (trimList code).isEmpty then DiagOutcome.errorMsg noDiagramMsg
  else
    match parseRes with
    | Except.error e => DiagOutcome.errorMsg (orDefaultMsg mermaidDefaultMsg e)
    | Except.ok _ =>
        match renderRes with
        | Except.error e => DiagOutcome.errorMsg (orDefaultMsg mermaidDefaultMsg e)
        | Except.ok svg => DiagOutcome.ok svg

/-- A capability namespace containing no name at all. -/
def emptyNs : List Char → Bool := fun _ => false

def c1cxCode : List Char := "const x = 5".toList

def c1cxRaw : List Char := "Unexpected token (1:5)".toList

def c1wCode : List Char := "const y = 1".toList

def c1wRaw : List Char := "boom".toList

def c2wInput : List Char := "<svg></svg>".toList

def c3cxInput : List Char := "import X from \"a\";".toList

def c3wInput : List Char := "export default App;".toList

def c4Input : List Char := "export default function App() \x7b return 1; \x7d".toList

def c4Mangled : List Char := "var componentToRender = function; App() \x7b return 1; \x7d".toList

def c5cxInput : List Char := "function App() \x7b return 1; \x7d".toList

def c5wInput : List Char := "<svg></svg>".toList

def c6cxCode : List Char := "import \x7b Blarg \x7d from \"lucide-react\";".toList

def c6cxMsg : List Char := "Blarg is not defined".toList

def c6cxName : List Char := "Blarg".toList

def c6wCode : List Char := "import Heart from ".toList ++ [sq] ++ lucideModLit ++ [sq] ++ [';']

def c6wMsg : List Char := "Heart is not defined".toList

def c6wName : List Char := "Heart".toList

def c6wIcons : List (List Char) := ["Image".toList, "Cpu".toList]

def c7Input : List Char := "<svg><circle cx=\"5\" cy=\"5\" r=\"2\"/></svg>".toList

def c8cxInput : List Char := "graph TD\n<svg></svg>".toList

def c8wInput : List Char := "flowchart TD".toList

def c9cxInput : List Char := "not a diagram".toList

def c9cxMsg : List Char := "Parse error on line 1".toList

def c9cxSvg : List Char := "<svg/>".toList

def c9wInput : List Char := "flowchart TD\nA-->B".toList

def c9wMsg : List Char := "Syntax error".toList

def c9wMsg2 : List Char := "Render failed".toList

def c9wSvg : List Char := "<svg/>".toList

def c10wInput : List Char := "<svg".toList

theorem isPrefixOfB_iff (n : List Char) : ∀ s : List Char, isPrefixOfB n s = true ↔ ∃ t, s = n ++ t := by
  induction n with
  | nil => intro s; simp [isPrefixOfB]
  | cons a as ih =>
    intro s
    cases s with
    | nil => simp [isPrefixOfB]
    | cons b bs =>
      constructor
      · intro h
        rw [isPrefixOfB, Bool.and_eq_true, beq_iff_eq] at h
        obtain ⟨hab, h2⟩ := h
        obtain ⟨t, ht⟩ := (ih bs).mp h2
        exact ⟨t, by rw [List.cons_append, hab, ht]⟩
      · rintro ⟨t, ht⟩
        rw [List.cons_append] at ht
        injection ht with h1 h2
        subst h1
        rw [isPrefixOfB, Bool.and_eq_true, beq_iff_eq]
        exact ⟨rfl, (ih bs).mpr ⟨t, h2⟩⟩

theorem containsSub_iff (n : List Char) : ∀ s : List Char, containsSub n s = true ↔ ∃ p q, s = p ++ (n ++ q) := by
  intro s
  induction s with
  | nil =>
    rw [containsSub, isPrefixOfB_iff]
    constructor
    · rintro ⟨t, ht⟩; exact ⟨[], t, by simpa using ht⟩
    · rintro ⟨p, q, h⟩
      rcases List.append_eq_nil.mp h.symm with ⟨rfl, h2⟩
      exact ⟨q, by simpa using h⟩
  | cons c cs ih =>
    rw [containsSub, Bool.or_eq_true]
    constructor
    · intro h
      cases h with
      | inl h =>
        obtain ⟨t, ht⟩ := (isPrefixOfB_iff n (c :: cs)).mp h
        exact ⟨[], t, by simpa using ht⟩
      | inr h =>
        obtain ⟨p, q, hp⟩ := ih.mp h
        exact ⟨c :: p, q, by simp [hp]⟩
    · rintro ⟨p, q, hp⟩
      cases p with
      | nil =>
        exact Or.inl ((isPrefixOfB_iff n (c :: cs)).mpr ⟨q, by simpa using hp⟩)
      | cons d ds =>
        rw [List.cons_append] at hp
        injection hp with h1 h2
        exact Or.inr (ih.mpr ⟨ds, q, h2⟩)

theorem containsSub_of_parts (n s p q : List Char) (h : s = p ++ (n ++ q)) :
    containsSub n s = true :=
  (containsSub_iff n s).mpr ⟨p, q, h⟩

theorem containsSub_rev (n s : List Char) (h : containsSub n s = true) :
    containsSub n.reverse s.reverse = true := by
  obtain ⟨p, q, rfl⟩ := (containsSub_iff n s).mp h
  apply containsSub_of_parts n.reverse _ q.reverse p.reverse
  simp

theorem containsSub_dropWhile_head (c : Char) (m : List Char) (hc : isWS c = false) :
    ∀ s : List Char, containsSub (c :: m) s = true →
      containsSub (c :: m) (s.dropWhile isWS) = true := by
  intro s
  induction s with
  | nil => intro h; simpa using h
  | cons a as ih =>
    intro h
    rw [List.dropWhile_cons]
    by_cases ha : isWS a = true
    · rw [ha]
      simp only [if_true]
      apply ih
      rw [containsSub, Bool.or_eq_true] at h
      cases h with
      | inl h =>
        exfalso
        rw [isPrefixOfB, Bool.and_eq_true, beq_iff_eq] at h
        obtain ⟨hca, _⟩ := h
        rw [hca] at hc
        rw [hc] at ha
        exact Bool.noConfusion ha
      | inr h => exact h
    · have ha' : isWS a = false := Bool.eq_false_iff.mpr ha
      rw [ha']
      simpa using h

theorem containsSub_trimList (n : List Char) (c : Char) (m : List Char) (d : Char) (k : List Char)
    (hn : n = c :: m) (hrev : n.reverse = d :: k) (hc : isWS c = false) (hd : isWS d = false)
    (s : List Char) (h : containsSub n s = true) : containsSub n (trimList s) = true := by
  have h1 : containsSub n (s.dropWhile isWS) = true := by
    rw [hn] at h ⊢
    exact containsSub_dropWhile_head c m hc s h
  have h2 : containsSub n.reverse (s.dropWhile isWS).reverse = true := containsSub_rev _ _ h1
  have h3 : containsSub n.reverse ((s.dropWhile isWS).reverse.dropWhile isWS) = true := by
    rw [hrev] at h2 ⊢
    exact containsSub_dropWhile_head d k hd _ h2
  have h4 := containsSub_rev _ _ h3
  rw [List.reverse_reverse] at h4
  simpa [trimList] using h4

theorem findMatch_eq_none_of_not_hasMatch (pats : List Pat) (s : List Char)
    (h : hasMatch pats s = false) : findMatch pats s = none := by
  cases hm : findMatch pats s with
  | none => rfl
  | some v =>
    rw [hasMatch, hm] at h
    exact Bool.noConfusion h

theorem replaceAll_eq_of_none (pats : List Pat) (tmpl : List (List Char) → List Char)
    (s : List Char) (h : findMatch pats s = none) : replaceAll pats tmpl s = s := by
  simp [replaceAll, replaceAllF, h]

theorem looksLikeSvg_of_trim (s : List Char) (h : containsSub svgNeedle (trimList s) = true) :
    looksLikeSvg s = true := by
  simp [looksLikeSvg, h]

theorem spar_false_of_svg (s : List Char) (h : looksLikeSvg s = true) :
    shouldProcessAsReact s = false := by
  simp [shouldProcessAsReact, h]

theorem spar_false_of_mermaid (s : List Char) (h : looksLikeMermaid s = true) :
    shouldProcessAsReact s = false := by
  simp [shouldProcessAsReact, h]

theorem hintsFor_eq_nil_iff (m : List Char) :
    hintsFor m = [] ↔
      (containsSub lucideReactNeedle m = false ∧ containsSub svgUpperNeedle m = false ∧
       containsSub mermaidWordNeedle m = false ∧ containsSub htmlCommentsNeedle m = false) := by
  cases h1 : containsSub lucideReactNeedle m <;> cases h2 : containsSub svgUpperNeedle m <;>
    cases h3 : containsSub mermaidWordNeedle m <;> cases h4 : containsSub htmlCommentsNeedle m <;>
      simp [hintsFor, h1, h2, h3, h4]

/-- Claim C2: every input containing the markup root open and close tags in
its trimmed text is classified as markup by the classifier, which consults
only the code and never the declared kind; in particular the markup signal is
checked before the diagram signal, so no hypothesis about diagram keywords is
needed, and the dispatch for a react-declared snippet routes such input to the
markup renderer. -/
theorem c2_markup_precedence (s : List Char)
    (h1 : containsSub svgNeedle (trimList s) = true)
    (_h2 : containsSub svgCloseNeedle (trimList s) = true) :
    inferredConfident s = some RPath.markup ∧ chosenPath DeclaredType.react s = RPath.markup := by
  have hsvg : looksLikeSvg s = true := looksLikeSvg_of_trim s h1
  have hspar : shouldProcessAsReact s = false := spar_false_of_svg s hsvg
  exact ⟨by simp [inferredConfident, hspar, hsvg], by simp [chosenPath, hspar, hsvg]⟩

/-- Witness for claim C2 at a concrete svg snippet. -/
theorem c2_markup_precedence_witness :
    inferredConfident c2wInput = some RPath.markup ∧
    chosenPath DeclaredType.react c2wInput = RPath.markup :=
  c2_markup_precedence c2wInput (by decide) (by decide)

/-- Claim C7: the concrete snippet with an svg circle, declared as a react
component, is rejected by the component heuristic, rerouted by the single
fallback to the markup renderer, passes its validation and renders; the pass
ends Rendered even when component execution would have failed. -/
theorem c7_fallback_renders_markup :
    shouldProcessAsReact c7Input = false ∧
    chosenPath DeclaredType.react c7Input = RPath.markup ∧
    fallbackCount DeclaredType.react c7Input = 1 ∧
    svgValid c7Input = true ∧
    renderOutcome DeclaredType.react c7Input false false = Outcome.rendered RPath.markup := by
  refine ⟨by decide, by decide, by decide, by decide, by decide⟩

/-- Claim C8 counterexample: an input whose first non-blank line is a diagram
keyword anchor but which also contains markup tags is classified as markup,
not as the diagram kind the claim requires. -/
theorem c8_counterexample :
    looksLikeMermaid c8cxInput = true ∧
    inferredConfident c8cxInput = some RPath.markup ∧
    some RPath.markup ≠ some RPath.diagram := by
  refine ⟨by decide, by decide, by decide⟩

/-- Claim C8 as amended: an input whose first non-blank line matches a diagram
keyword anchor is classified as the diagram kind provided the markup signal
does not also fire, since the classifier checks markup first. -/
theorem c8_amended (s : List Char) (hm : looksLikeMermaid s = true)
    (hs : looksLikeSvg s = false) :
    inferredConfident s = some RPath.diagram ∧
    chosenPath DeclaredType.react s = RPath.diagram := by
  have hspar : shouldProcessAsReact s = false := spar_false_of_mermaid s hm
  exact ⟨by simp [inferredConfident, hspar, hs, hm], by simp [chosenPath, hspar, hs, hm]⟩

/-- Witness for the amended claim C8 at a concrete flowchart snippet. -/
theorem c8_amended_witness :
    inferredConfident c8wInput = some RPath.diagram ∧
    chosenPath DeclaredType.react c8wInput = RPath.diagram :=
  c8_amended c8wInput (by decide) (by decide)

/-- Claim C10: any input containing the svg-open substring anywhere fires the
markup signal and is never routed to the component path, however many
component indicators it also contains; no closing tag is needed for the
classification, although the markup renderer validation does require one. -/
theorem c10_svg_substring_never_react (s : List Char)
    (h : containsSub svgNeedle s = true) :
    looksLikeSvg s = true ∧ shouldProcessAsReact s = false := by
  have ht : containsSub svgNeedle (trimList s) = true :=
    containsSub_trimList svgNeedle '<' (['s', 'v', 'g']) 'g' (['v', 's', '<'])
      (by decide) (by decide) (by decide) (by decide) s h
  have hsvg := looksLikeSvg_of_trim s ht
  exact ⟨hsvg, spar_false_of_svg s hsvg⟩

/-- Witness for claim C10 at the open tag alone, which also fails the markup
renderer validation for want of a closing tag. -/
theorem c10_witness :
    containsSub svgNeedle c10wInput = true ∧
    (looksLikeSvg c10wInput = true ∧ shouldProcessAsReact c10wInput = false) ∧
    svgValid c10wInput = false :=
  ⟨by decide, c10_svg_substring_never_react c10wInput (by decide), by decide⟩

/-- Claim C1 counterexample: a component-path failure whose raw message
matches no recognition pattern is surfaced to the UI verbatim and carries no
remediation hint, contradicting the claim that every terminal failure carries
a category-specific hint and that raw host exceptions are never surfaced
verbatim. -/
theorem c1_counterexample :
    displayedMessage c1cxCode c1cxRaw emptyNs [] = c1cxRaw ∧
    hintsFor (displayedMessage c1cxCode c1cxRaw emptyNs []) = [] := by
  refine ⟨by decide, by decide⟩

/-- Claim C1 as amended: every component-path failure is caught at the
dispatch boundary and converted into a terminal error box holding the
displayed message and its hints; a remediation hint is attached exactly when
the displayed message contains one of the four recognized trigger substrings;
when neither the misclassification rewrites nor the lucide enrichment
applies, a non-empty raw host message is surfaced verbatim, and an empty raw
message is replaced by the fixed default failure message. -/
theorem c1_amended (code raw : List Char) (ns : List Char → Bool) (icons : List (List Char)) :
    componentFailureView code raw ns icons
      = UIView.errorBox (displayedMessage code raw ns icons)
          (hintsFor (displayedMessage code raw ns icons)) ∧
    (hintsFor (displayedMessage code raw ns icons) = [] ↔
      (containsSub lucideReactNeedle (displayedMessage code raw ns icons) = false ∧
       containsSub svgUpperNeedle (displayedMessage code raw ns icons) = false ∧
       containsSub mermaidWordNeedle (displayedMessage code raw ns icons) = false ∧
       containsSub htmlCommentsNeedle (displayedMessage code raw ns icons) = false)) ∧
    (looksLikeSvg code = false → looksLikeMermaid code = false →
     containsSub htmlOpenCmtNeedle code = false →
     containsSub notDefinedNeedle raw = false → containsSub notFunctionNeedle raw = false →
     raw.isEmpty = false →
     displayedMessage code raw ns icons = raw) ∧
    (looksLikeSvg code = false → looksLikeMermaid code = false →
     containsSub htmlOpenCmtNeedle code = false →
     displayedMessage code [] ns icons = failedRenderDefaultMsg) := by
  refine ⟨rfl, hintsFor_eq_nil_iff _, ?_, ?_⟩
  · intro h1 h2 h3 h4 h5 h6
    simp [displayedMessage, innerCatchMsg, h1, h2, h3, enrichError, h4, h5, orDefaultMsg, h6]
  · intro h1 h2 h3
    have hn1 : containsSub notDefinedNeedle [] = false := by decide
    have hn2 : containsSub notFunctionNeedle [] = false := by decide
    simp [displayedMessage, innerCatchMsg, h1, h2, h3, enrichError, hn1, hn2, orDefaultMsg]

/-- Witness for the amended claim C1: a concrete non-empty unrecognized
failure message is passed through unchanged, and the empty message at the
same source is replaced by the default. -/
theorem c1_amended_witness :
    displayedMessage c1wCode c1wRaw emptyNs [] = c1wRaw ∧
    displayedMessage c1wCode [] emptyNs [] = failedRenderDefaultMsg :=
  ⟨(c1_amended c1wCode c1wRaw emptyNs []).2.2.1 (by decide) (by decide) (by decide)
     (by decide) (by decide) (by decide),
   (c1_amended c1wCode [] emptyNs []).2.2.2 (by decide) (by decide) (by decide)⟩

/-- Claim C6 counterexample: a source referencing the icon-capability module
with a double-quoted specifier is recognized as an icon import by the
transformer's own pattern, yet an undefined-symbol failure for a symbol
missing from the namespace is re-raised raw, not as the missing-icon error,
because the enrichment tests only for the single-quoted specifier. -/
theorem c6_counterexample :
    hasMatch rule4Pat c6cxCode = true ∧
    extractNotDefined c6cxMsg = some c6cxName ∧
    emptyNs c6cxName = false ∧
    enrichError emptyNs [] c6cxCode c6cxMsg = c6cxMsg ∧
    c6cxMsg ≠ missingIconMsg [] c6cxName := by
  refine ⟨by decide, by decide, rfl, by decide, by decide⟩

/-- Claim C6 as amended: when the source mentions the single-quoted
icon-capability specifier, the failure message contains the undefined-symbol
phrase, the extracted symbol is absent from the namespace, the failure is
re-raised as the missing-icon error, which names that exact symbol and embeds
the full joined icon list. -/
theorem c6_amended (ns : List Char → Bool) (icons : List (List Char)) (code msg name : List Char)
    (h1 : containsSub notDefinedNeedle msg = true)
    (h2 : extractNotDefined msg = some name)
    (h3 : ns name = false)
    (h4 : containsSub sqLucideNeedle code = true) :
    enrichError ns icons code msg = missingIconMsg icons name ∧
    containsSub name (enrichError ns icons code msg) = true ∧
    containsSub (joinComma icons) (enrichError ns icons code msg) = true := by
  have he : enrichError ns icons code msg = missingIconMsg icons name := by
    rw [enrichError, h1]
    simp [h2, h3, h4]
  refine ⟨he, ?_, ?_⟩
  · rw [he, missingIconMsg]
    exact containsSub_of_parts name _ missingIconMsgA (missingIconMsgB ++ joinComma icons)
      (by simp [List.append_assoc])
  · rw [he, missingIconMsg]
    exact containsSub_of_parts (joinComma icons) _
      (missingIconMsgA ++ name ++ missingIconMsgB) []
      (by simp [List.append_assoc])

/-- Witness for the amended claim C6 at a concrete single-quoted import and a
concrete undefined-symbol message. -/
theorem c6_amended_witness :
    enrichError emptyNs c6wIcons c6wCode c6wMsg = missingIconMsg c6wIcons c6wName :=
  (c6_amended emptyNs c6wIcons c6wCode c6wMsg c6wName (by decide) (by decide) rfl
    (by decide)).1

/-- Claim C9 counterexample: a parse failure and a render failure with the
same collaborator message produce identical terminal outcomes, so a render
failure is not distinguishable from a parse error; the code funnels both into
the same undifferentiated error state. -/
theorem c9_counterexample :
    renderDiagramModel c9cxInput (Except.error c9cxMsg) (Except.ok c9cxSvg) =
    renderDiagramModel c9cxInput (Except.ok ()) (Except.error c9cxMsg) := by
  decide

/-- Claim C9 as amended: for non-blank diagram input the parse-only pass runs
first, a parse failure is terminal with the parse message and the render
result is never consulted, and a render failure after a successful parse is
terminal with the render message, where an empty failure message is replaced
by the fixed default; both failures surface through the same error channel
rather than as distinct categories, and the per-invocation render identifier
is randomly drawn by the host, outside the model. -/
theorem c9_amended (code e e2 : List Char) (r r2 : Except (List Char) (List Char))
    (h : (trimList code).isEmpty = false)
    (he : e.isEmpty = false) (he2 : e2.isEmpty = false) :
    renderDiagramModel code (Except.error e) r = DiagOutcome.errorMsg e ∧
    renderDiagramModel code (Except.error e) r = renderDiagramModel code (Except.error e) r2 ∧
    renderDiagramModel code (Except.ok ()) (Except.error e2) = DiagOutcome.errorMsg e2 ∧
    renderDiagramModel code (Except.error []) r = DiagOutcome.errorMsg mermaidDefaultMsg := by
  refine ⟨?_, ?_, ?_, ?_⟩ <;> simp [renderDiagramModel, orDefaultMsg, h, he, he2]

/-- Witness for the amended claim C9 at a concrete flowchart snippet with
concrete non-empty failure messages. -/
theorem c9_amended_witness :
    renderDiagramModel c9wInput (Except.error c9wMsg) (Except.ok c9wSvg)
      = DiagOutcome.errorMsg c9wMsg ∧
    renderDiagramModel c9wInput (Except.error c9wMsg) (Except.ok c9wSvg)
      = renderDiagramModel c9wInput (Except.error c9wMsg) (Except.error c9wMsg2) ∧
    renderDiagramModel c9wInput (Except.ok ()) (Except.error c9wMsg2)
      = DiagOutcome.errorMsg c9wMsg2 ∧
    renderDiagramModel c9wInput (Except.error []) (Except.ok c9wSvg)
      = DiagOutcome.errorMsg mermaidDefaultMsg :=
  c9_amended c9wInput c9wMsg c9wMsg2 (Except.ok c9wSvg) (Except.error c9wMsg2) (by decide)
    (by decide) (by decide)

/-- Claim C3 counterexample: an unrecognized import is rewritten to a comment
the generic import rule still matches, so transform applied to its own output
nests the comment again and the output is not a fixed point. -/
theorem c3_counterexample : transform (transform c3cxInput) ≠ transform c3cxInput := by
  decide

/-- Claim C3 as amended: the transformer output is a fixed point of the
rewrite rules whenever no rule pattern matches it, which holds for recognized
react, lucide-react and recharts imports and default exports, but not for
every input, because an unrecognized import rewrites to a comment that the
generic import rule matches again. -/
theorem c3_amended (s : List Char) (h : noRuleMatch (transform s) = true) :
    transform (transform s) = transform s := by
  rw [noRuleMatch] at h
  simp only [Bool.and_eq_true, Bool.not_eq_true'] at h
  obtain ⟨⟨⟨⟨⟨⟨⟨⟨h1, h2⟩, h3⟩, h4⟩, h5⟩, h6⟩, h7⟩, h8⟩, h9⟩ := h
  have e1 := replaceAll_eq_of_none rule1Pat emptyTmpl (transform s)
    (findMatch_eq_none_of_not_hasMatch _ _ h1)
  have e2 := replaceAll_eq_of_none rule2Pat emptyTmpl (transform s)
    (findMatch_eq_none_of_not_hasMatch _ _ h2)
  have e3 := replaceAll_eq_of_none rule3Pat emptyTmpl (transform s)
    (findMatch_eq_none_of_not_hasMatch _ _ h3)
  have e4 := replaceAll_eq_of_none rule4Pat rule4Tmpl (transform s)
    (findMatch_eq_none_of_not_hasMatch _ _ h4)
  have e5 := replaceAll_eq_of_none rule5Pat rule5Tmpl (transform s)
    (findMatch_eq_none_of_not_hasMatch _ _ h5)
  have e6 := replaceAll_eq_of_none rule6Pat emptyTmpl (transform s)
    (findMatch_eq_none_of_not_hasMatch _ _ h6)
  have e7 := replaceAll_eq_of_none rule7Pat rule7Tmpl (transform s)
    (findMatch_eq_none_of_not_hasMatch _ _ h7)
  have e8 := replaceAll_eq_of_none rule8Pat rule8Tmpl (transform s)
    (findMatch_eq_none_of_not_hasMatch _ _ h8)
  have e9 := replaceAll_eq_of_none rule9Pat rule9Tmpl (transform s)
    (findMatch_eq_none_of_not_hasMatch _ _ h9)
  conv_lhs => rw [transform]
  rw [e1, e2, e3, e4, e5, e6, e7, e8, e9]

/-- Witness for the amended claim C3: a plain named default export transforms
to the sentinel assignment, no rule matches the result, and the output is a
fixed point. -/
theorem c3_amended_witness :
    noRuleMatch (transform c3wInput) = true ∧
    transform (transform c3wInput) = transform c3wInput :=
  ⟨by decide, c3_amended c3wInput (by decide)⟩

/-- Claim C4, evaluating the code at the failing input: the component
heuristic accepts the source, but the named-default-export rule captures the
function keyword as its identifier, so the default-export statement is
rewritten to an assignment of the bare keyword with the declaration orphaned
behind it, not to an assignment of the exported value, and the output is not
executable source. -/
theorem c4_transform_mangles_function_export :
    shouldProcessAsReact c4Input = true ∧ transform c4Input = c4Mangled := by
  refine ⟨by decide, by decide⟩

/-- Claim C5 counterexample: for a snippet declared as markup whose code is
confidently classified as a component, the markup path fails its validation
yet the dispatch takes no fallback transition at all and the pass terminates
Failed, against the claim that any failing declared path with a differing
confident inference transitions once to the inferred path. -/
theorem c5_counterexample :
    pathSucceeds (chosenPath DeclaredType.svg c5cxInput) c5cxInput true true = false ∧
    inferredConfident c5cxInput = some RPath.component ∧
    chosenPath DeclaredType.svg c5cxInput = RPath.markup ∧
    fallbackCount DeclaredType.svg c5cxInput = 0 ∧
    renderOutcome DeclaredType.svg c5cxInput true true = Outcome.failed := by
  refine ⟨by decide, by decide, rfl, rfl, by decide⟩

/-- Claim C5 as amended: no render pass takes more than one fallback
transition; declared markup and diagram kinds never fall back and their path
failure is terminal; for a declared component kind the dispatch follows the
classifier's confident inference exactly, taking exactly one fallback when
the inference is markup or diagram, and stays on the component path with no
fallback when no confident inference exists; whenever the chosen path fails
the pass terminates Failed. -/
theorem c5_amended (t : DeclaredType) (code : List Char) (execOk diagOk : Bool) :
    fallbackCount t code ≤ 1 ∧
    (t = DeclaredType.svg → chosenPath t code = RPath.markup ∧ fallbackCount t code = 0) ∧
    (t = DeclaredType.mermaid → chosenPath t code = RPath.diagram ∧ fallbackCount t code = 0) ∧
    (∀ k, t = DeclaredType.react → inferredConfident code = some k → chosenPath t code = k) ∧
    (t = DeclaredType.react → shouldProcessAsReact code = false →
      (looksLikeSvg code = true ∨ looksLikeMermaid code = true) → fallbackCount t code = 1) ∧
    (t = DeclaredType.react → inferredConfident code = none →
      chosenPath t code = RPath.component ∧ fallbackCount t code = 0) ∧
    (pathSucceeds (chosenPath t code) code execOk diagOk = false →
      renderOutcome t code execOk diagOk = Outcome.failed) := by
  cases t with
  | svg =>
    refine ⟨by simp [fallbackCount], fun _ => ⟨rfl, rfl⟩, fun hk => absurd hk (by decide),
      fun k hk => absurd hk (by decide), fun hk => absurd hk (by decide),
      fun hk => absurd hk (by decide), ?_⟩
    intro hf
    simp [renderOutcome, hf]
  | mermaid =>
    refine ⟨by simp [fallbackCount], fun hk => absurd hk (by decide), fun _ => ⟨rfl, rfl⟩,
      fun k hk => absurd hk (by decide), fun hk => absurd hk (by decide),
      fun hk => absurd hk (by decide), ?_⟩
    intro hf
    simp [renderOutcome, hf]
  | react =>
    cases hs : shouldProcessAsReact code with
    | true =>
      refine ⟨by simp [fallbackCount, hs], fun hk => absurd hk (by decide),
        fun hk => absurd hk (by decide), ?_, ?_, ?_, ?_⟩
      · intro k _ hk
        simp only [inferredConfident, hs, if_true, Option.some.injEq] at hk
        simp [chosenPath, hs, ← hk]
      · intro _ hf _
        exact Bool.noConfusion hf
      · intro _ hn
        simp [inferredConfident, hs] at hn
      · intro hf
        simp [renderOutcome, hf]
    | false =>
      cases hsvg : looksLikeSvg code with
      | true =>
        refine ⟨by simp [fallbackCount, hs, hsvg], fun hk => absurd hk (by decide),
          fun hk => absurd hk (by decide), ?_, ?_, ?_, ?_⟩
        · intro k _ hk
          simp only [inferredConfident, hs, hsvg, if_true, if_false, Bool.false_eq_true,
            Option.some.injEq] at hk
          simp [chosenPath, hs, hsvg, ← hk]
        · intro _ _ _
          simp [fallbackCount, hs, hsvg]
        · intro _ hn
          simp [inferredConfident, hs, hsvg] at hn
        · intro hf
          simp [renderOutcome, hf]
      | false =>
        cases hm : looksLikeMermaid code with
        | true =>
          refine ⟨by simp [fallbackCount, hs, hsvg, hm], fun hk => absurd hk (by decide),
            fun hk => absurd hk (by decide), ?_, ?_, ?_, ?_⟩
          · intro k _ hk
            simp only [inferredConfident, hs, hsvg, hm, if_true, if_false, Bool.false_eq_true,
              Option.some.injEq] at hk
            simp [chosenPath, hs, hsvg, hm, ← hk]
          · intro _ _ _
            simp [fallbackCount, hs, hsvg, hm]
          · intro _ hn
            simp [inferredConfident, hs, hsvg, hm] at hn
          · intro hf
            simp [renderOutcome, hf]
        | false =>
          refine ⟨by simp [fallbackCount, hs, hsvg, hm], fun hk => absurd hk (by decide),
            fun hk => absurd hk (by decide), ?_, ?_, ?_, ?_⟩
          · intro k _ hk
            simp [inferredConfident, hs, hsvg, hm] at hk
          · intro _ _ hor
            rcases hor with hx | hx
            · exact Bool.noConfusion hx
            · exact Bool.noConfusion hx
          · intro _ _
            exact ⟨by simp [chosenPath, hs, hsvg, hm], by simp [fallbackCount, hs, hsvg, hm]⟩
          · intro hf
            simp [renderOutcome, hf]

/-- Witness for the amended claim C5: a react-declared svg snippet takes
exactly one fallback transition, to the markup path the classifier infers. -/
theorem c5_amended_witness :
    chosenPath DeclaredType.react c5wInput = RPath.markup ∧
    fallbackCount DeclaredType.react c5wInput = 1 :=
  ⟨(c5_amended DeclaredType.react c5wInput true true).2.2.2.1 RPath.markup rfl (by decide),
   (c5_amended DeclaredType.react c5wInput true true).2.2.2.2.1 rfl (by decide)
     (Or.inl (by decide))⟩

end ArtifactsGallery
